import Mathlib

/-!
Shallow embedding of the NESCO prepaid-meter balance tracker
(backend/app.py: Flask API over SQLAlchemy models, and backend/bot.py:
Telegram conversation handlers).  Balances are modelled as rationals,
timestamps as integers (seconds); the database session is an explicit
record threaded through each operation; the HTML-scraping adapter is a
parameter of type String to ScrapeResult.
-/

namespace Nesco

/-- Row of the users table (app.py, class User): primary key, telegram
identity, the daily-reminder flag.  Fields not touched by any claim
(username, reminder_time, created_at) are omitted. -/
structure User where
  id : Nat
  telegram_user_id : Int
  daily_reminder_enabled : Bool
deriving Repr, DecidableEq

/-- Row of the meters table (app.py, class Meter). -/
structure Meter where
  id : Nat
  user_id : Nat
  meter_number : String
  meter_name : String
  min_balance : ℚ
  last_balance : Option ℚ
  last_checked : Option Int
deriving Repr, DecidableEq

/-- Row of the balance_history table (app.py, class BalanceHistory);
the surrogate primary key is omitted, rows are identified by position. -/
structure BalanceHistory where
  meter_id : Nat
  balance : ℚ
  recorded_at : Int
deriving Repr, DecidableEq

/-- The database: the three tables in insertion order, plus the next
fresh primary key for users and meters. -/
structure DB where
  users : List User
  meters : List Meter
  history : List BalanceHistory
  next_user_id : Nat
  next_meter_id : Nat
deriving Repr, DecidableEq

/-- Result of scrape_nesco_balance (app.py): a dict with success True and
a balance, or success False and an error string. -/
inductive ScrapeResult where
  | ok (balance : ℚ)
  | error (msg : String)
deriving Repr, DecidableEq

/-- Column default of Meter.min_balance (app.py line 37). -/
def DEFAULT_MIN_BALANCE : ℚ := 50

/-- timedelta(days=1) in seconds. -/
def SECONDS_PER_DAY : Int := 86400

/-- User.query.filter_by(telegram_user_id=...).first() -/
def findUser (db : DB) (tgid : Int) : Option User :=
  db.users.find? (fun u => u.telegram_user_id == tgid)

/-- Meter.query.filter_by(user_id=..., meter_number=...).first() -/
def findMeter (db : DB) (uid : Nat) (number : String) : Option Meter :=
  db.meters.find? (fun m => m.user_id == uid && m.meter_number == number)

/-- The create-user-if-absent preamble of add_meter (app.py lines 119-123):
looks the telegram identity up and, when absent, inserts and commits a new
User row (the daily_reminder_enabled column default True applies at
insert). -/
def ensureUser (db : DB) (tgid : Int) : DB × User :=
  match findUser db tgid with
  | some u => (db, u)
  | none =>
    let u : User := ⟨db.next_user_id, tgid, true⟩
    ({ db with users := db.users ++ [u], next_user_id := db.next_user_id + 1 }, u)

/-- Outcome of the /api/add-meter endpoint. -/
inductive AddMeterResult where
  | missingFields
  | duplicate
  | verificationFailed (err : String)
  | ok (balance : ℚ)
deriving Repr, DecidableEq

/-- add_meter (app.py lines 108-152): field presence check (Python
truthiness: 0 and the empty string are falsy), user creation, duplicate
check, verification scrape, then atomic insert of the Meter row and its
first BalanceHistory row. -/
def add_meter (fetch : String → ScrapeResult) (now : Int) (db : DB)
    (tgid : Int) (meter_number meter_name : String) : DB × AddMeterResult :=
  if tgid == 0 || meter_number == "" || meter_name == "" then
    (db, .missingFields)
  else
    let du := ensureUser db tgid
    match findMeter du.1 du.2.id meter_number with
    | some _ => (du.1, .duplicate)
    | none =>
      match fetch meter_number with
      | .error e => (du.1, .verificationFailed e)
      | .ok bal =>
        let m : Meter := ⟨du.1.next_meter_id, du.2.id, meter_number, meter_name,
          DEFAULT_MIN_BALANCE, some bal, some now⟩
        ({ du.1 with
            meters := du.1.meters ++ [m],
            history := du.1.history ++ [⟨du.1.next_meter_id, bal, now⟩],
            next_meter_id := du.1.next_meter_id + 1 }, .ok bal)

/-- One entry of the results list returned by /api/check-balances: either a
status dict with balance, yesterday_usage, alert and min_balance, or an
error dict carrying the scrape failure. -/
inductive CheckEntry where
  | ok (name number : String) (balance : ℚ) (yesterday_usage : Option ℚ)
      (alert : Bool) (min_balance : ℚ)
  | fetchError (name number : String) (err : String)
deriving Repr, DecidableEq

/-- The yesterday_usage field of a status entry, when the entry is a
success. -/
def CheckEntry.usage : CheckEntry → Option (Option ℚ)
  | .ok _ _ _ u _ _ => some u
  | .fetchError _ _ _ => none

/-- The balance field of a status entry, when the entry is a success. -/
def CheckEntry.bal : CheckEntry → Option ℚ
  | .ok _ _ b _ _ _ => some b
  | .fetchError _ _ _ => none

/-- Overall outcome of /api/check-balances. -/
inductive CheckResult where
  | noMeters
  | ok (results : List CheckEntry)
deriving Repr, DecidableEq

/-- The later of two history rows; on equal timestamps the first argument
(the earlier row in scan order) is kept, matching the order_by desc /
first() query. -/
def pickLater (a b : BalanceHistory) : BalanceHistory :=
  if a.recorded_at < b.recorded_at then b else a

/-- The row with the greatest recorded_at in a list of history rows
(none on the empty list): the order_by(recorded_at.desc()).first() of the
yesterday query in check_balances. -/
def latestIn : List BalanceHistory → Option BalanceHistory
  | [] => none
  | h :: t =>
    match latestIn t with
    | none => some h
    | some b => some (pickLater h b)

/-- The filter of the yesterday query (app.py lines 196-199): history rows
of the given meter with recorded_at at or after the cutoff. -/
def windowEntries (db : DB) (mid : Nat) (cutoff : Int) : List BalanceHistory :=
  db.history.filter (fun h => h.meter_id == mid && decide (cutoff ≤ h.recorded_at))

/-- The per-meter body of the check_balances loop (app.py lines 188-229):
scrape, look the trailing-day prior reading up, compute usage, update the
snapshot, append to history, evaluate the alert; on scrape failure leave
the database untouched and emit an error entry. -/
def refreshMeter (fetch : String → ScrapeResult) (now : Int) (db : DB)
    (meter : Meter) : DB × CheckEntry :=
  match fetch meter.meter_number with
  | .error e => (db, .fetchError meter.meter_name meter.meter_number e)
  | .ok bal =>
    let prior := latestIn (windowEntries db meter.id (now - SECONDS_PER_DAY))
    let usage := prior.map (fun h => h.balance - bal)
    ({ db with
        meters := db.meters.map (fun m =>
          if m.id == meter.id
          then { m with last_balance := some bal, last_checked := some now }
          else m),
        history := db.history ++ [⟨meter.id, bal, now⟩] },
      .ok meter.meter_name meter.meter_number bal usage
        (decide (bal < meter.min_balance)) meter.min_balance)

/-- user.meters: the meters owned by a user, in insertion order. -/
def userMeters (db : DB) (uid : Nat) : List Meter :=
  db.meters.filter (fun m => m.user_id == uid)

/-- check_balances (app.py lines 175-233): 404 when the user is unknown or
owns no meters, else the per-meter loop over user.meters, collecting one
entry per meter and committing all updates at the end. -/
def check_balances (fetch : String → ScrapeResult) (now : Int) (db : DB)
    (tgid : Int) : DB × CheckResult :=
  match findUser db tgid with
  | none => (db, .noMeters)
  | some user =>
    let ms := userMeters db user.id
    if ms.isEmpty then (db, .noMeters)
    else
      let step := ms.foldl (fun (acc : DB × List CheckEntry) m =>
        let r := refreshMeter fetch now acc.1 m
        (r.1, acc.2 ++ [r.2])) (db, [])
      (step.1, .ok step.2)

/-- Outcome of the /api/set-min-balance endpoint. -/
inductive SetMinResult where
  | userNotFound
  | meterNotFound
  | ok
deriving Repr, DecidableEq

/-- set_min_balance (app.py lines 256-275): user lookup, meter lookup,
then the unconditional assignment meter.min_balance = float(min_balance)
and commit; there is no sign or range check on the value. -/
def set_min_balance (db : DB) (tgid : Int) (meter_id : Nat) (amount : ℚ) :
    DB × SetMinResult :=
  match findUser db tgid with
  | none => (db, .userNotFound)
  | some user =>
    match db.meters.find? (fun m => m.id == meter_id && m.user_id == user.id) with
    | none => (db, .meterNotFound)
    | some _ =>
      ({ db with meters := db.meters.map (fun m =>
          if m.id == meter_id && m.user_id == user.id
          then { m with min_balance := amount } else m) }, .ok)

/-- toggle_reminder (app.py lines 277-292): flips daily_reminder_enabled
of the user and returns the new value.  When the user does not exist a new
row is inserted; on that fresh object the attribute is None before flush,
so the Python expression not None stores True. -/
def toggle_reminder (db : DB) (tgid : Int) : DB × Bool :=
  match findUser db tgid with
  | some u =>
    ({ db with users := db.users.map (fun v =>
        if v.telegram_user_id == tgid
        then { v with daily_reminder_enabled := !v.daily_reminder_enabled }
        else v) },
      !u.daily_reminder_enabled)
  | none =>
    let u : User := ⟨db.next_user_id, tgid, true⟩
    ({ db with
        users := db.users ++ [u]
        next_user_id := db.next_user_id + 1 }, true)

/-- Conversation states of bot.py line 15 plus ConversationHandler.END. -/
inductive BotState where
  | ADD_METER_NUMBER
  | ADD_METER_NAME
  | SET_MIN_METER
  | SET_MIN_AMOUNT
  | END
deriving Repr, DecidableEq

/-- One meter dict as stored in the minbalance_meters snapshot taken by
minbalance_start (bot.py line 225): the id and name fields used later. -/
structure MeterInfo where
  id : Nat
  name : String
deriving Repr, DecidableEq

/-- context.user_data: the scratch payload of the per-user conversation. -/
structure UserData where
  meter_number : Option String
  minbalance_meters : List MeterInfo
  selected_meter : Option MeterInfo
deriving Repr, DecidableEq

/-- Python str.isdigit restricted to the ASCII digits that meter numbers
use: true exactly on a non-empty string of digits. -/
def pyIsdigit (s : String) : Bool :=
  !s.data.isEmpty && s.data.all (fun c => c.isDigit)

/-- Python str.strip with no argument: removes leading and trailing
whitespace. -/
def pyStrip (s : String) : String :=
  String.mk (((s.data.dropWhile Char.isWhitespace).reverse.dropWhile
    Char.isWhitespace).reverse)

/-- add_meter_number (bot.py lines 74-83): strips the text; a non-digit
or empty identifier re-prompts and stays in ADD_METER_NUMBER leaving the
scratch untouched; a valid one is stored and the flow advances to
ADD_METER_NAME. -/
def add_meter_number (text : String) (ud : UserData) : BotState × UserData :=
  let number := pyStrip text
  if !pyIsdigit number then (.ADD_METER_NUMBER, ud)
  else (.ADD_METER_NAME, { ud with meter_number := some number })

/-- Value of an all-digit character list read in base ten. -/
def digitsToNat (l : List Char) : Nat :=
  l.foldl (fun acc c => acc * 10 + (c.toNat - 48)) 0

/-- Python int(str): strips whitespace, then an optional sign followed by
a non-empty run of digits; anything else raises ValueError (none here). -/
def pyInt (s : String) : Option Int :=
  let t := pyStrip s
  match t.data with
  | [] => none
  | c :: rest =>
    if c = '-' then
      if rest ≠ [] ∧ rest.all Char.isDigit then some (-(digitsToNat rest : Int))
      else none
    else if c = '+' then
      if rest ≠ [] ∧ rest.all Char.isDigit then some (digitsToNat rest : Int)
      else none
    else
      if (c :: rest).all Char.isDigit then some (digitsToNat (c :: rest) : Int)
      else none

/-- Python list subscription lst[i]: a non-negative index is looked up
directly and raises IndexError (none) past the end; a negative index counts
from the end, valid down to -len(lst). -/
def pyIndex {α : Type} (l : List α) (i : Int) : Option α :=
  if 0 ≤ i then l[i.toNat]?
  else if -(l.length : Int) ≤ i then l[l.length - (-i).toNat]?
  else none

/-- minbalance_meter_selected (bot.py lines 230-251): the Cancel reply ends
the flow; otherwise the text before the first dot is parsed with int() and
decremented, the snapshotted meter list is subscripted with the result
(Python semantics, so negative indices reach back from the end), and any
exception in that try block ends the flow with an invalid-selection
message; a successful subscription stores the meter and advances to
SET_MIN_AMOUNT. -/
def minbalance_meter_selected (text : String) (ud : UserData) :
    BotState × UserData :=
  if text = "Cancel" then (.END, ud)
  else
    match pyInt (String.mk (text.data.takeWhile (fun c => c ≠ '.'))) with
    | none => (.END, ud)
    | some i =>
      match pyIndex ud.minbalance_meters (i - 1) with
      | none => (.END, ud)
      | some m => (.SET_MIN_AMOUNT, { ud with selected_meter := some m })

/-- Splitting a character list on the dot character, Python
str.split with a dot argument. -/
def splitOnDot : List Char → List (List Char)
  | [] => [[]]
  | c :: t =>
    match splitOnDot t with
    | [] => [[]]
    | p :: ps => if c = '.' then [] :: p :: ps else (c :: p) :: ps

/-- Models Python float(str) on the plain decimal forms this flow can
receive: optional sign, then digits with an optional dot; exponent, inf
and nan forms are not modelled.  Returns none where float() raises
ValueError. -/
def pyFloat (s : String) : Option ℚ :=
  let t := (pyStrip s).data
  let neg := t.headD ' ' = '-'
  let body := if t.headD ' ' = '-' || t.headD ' ' = '+' then t.tail else t
  let mag : Option ℚ :=
    match splitOnDot body with
    | [ip] =>
      if !ip.isEmpty && ip.all Char.isDigit then
        some (digitsToNat ip : ℚ)
      else none
    | [ip, fp] =>
      if (!ip.isEmpty || !fp.isEmpty) && ip.all Char.isDigit
          && fp.all Char.isDigit then
        some ((digitsToNat ip : ℚ)
          + (digitsToNat fp : ℚ) / (10 ^ fp.length))
      else none
    | _ => none
  mag.map (fun v => if neg then -v else v)

/-- Outcome of the minbalance_amount step. -/
inductive AmountResult where
  | invalidNumber
  | keyError
  | backend (r : SetMinResult)
deriving Repr, DecidableEq

/-- minbalance_amount (bot.py lines 253-273): float() on the raw text; a
ValueError is answered with a re-typed error message and the flow ends
without calling the backend; a valid number is posted to
/api/set-min-balance for the selected meter and the flow ends. -/
def minbalance_amount (db : DB) (tgid : Int) (text : String) (ud : UserData) :
    DB × BotState × AmountResult :=
  match pyFloat text with
  | none => (db, .END, .invalidNumber)
  | some amount =>
    match ud.selected_meter with
    | none => (db, .END, .keyError)
    | some m =>
      let r := set_min_balance db tgid m.id amount
      (r.1, .END, .backend r.2)

/-! ## Theorems -/

/-- C1 counterexample: the claim says set_threshold(meter, -5) yields
InvalidThreshold with the threshold unchanged; on the code, with an
existing user 7 owning meter 0 at threshold 50, /api/set-min-balance with
-5 succeeds and stores -5. -/
theorem C1_counterexample :
    (set_min_balance ⟨[⟨0, 7, true⟩], [⟨0, 0, "123", "Home", 50, none, none⟩],
        [], 1, 1⟩ 7 0 (-5)).2 = .ok ∧
    (set_min_balance ⟨[⟨0, 7, true⟩], [⟨0, 0, "123", "Home", 50, none, none⟩],
        [], 1, 1⟩ 7 0 (-5)).1.meters
      = [⟨0, 0, "123", "Home", -5, none, none⟩] :=
  ⟨rfl, rfl⟩

/-- C1 amended: set_threshold succeeds for every numeric threshold,
positive or not, and stores it verbatim; only non-numeric input is
rejected, at the bot layer, with an invalid-number reply that leaves the
database untouched. -/
theorem C1_theorem (db : DB) (tgid : Int) (mid : Nat) (amount : ℚ)
    (u : User) (m : Meter) (text : String) (ud : UserData)
    (hu : findUser db tgid = some u)
    (hm : db.meters.find? (fun x => x.id == mid && x.user_id == u.id) = some m)
    (htext : pyFloat text = none) :
    (set_min_balance db tgid mid amount).2 = .ok ∧
    (∀ x ∈ (set_min_balance db tgid mid amount).1.meters,
      x.id = mid → x.user_id = u.id → x.min_balance = amount) ∧
    minbalance_amount db tgid text ud = (db, .END, .invalidNumber) := by
  unfold set_min_balance minbalance_amount
  rw [hu, htext]
  dsimp only
  rw [hm]
  refine ⟨rfl, ?_, rfl⟩
  intro x hmem h1 h2
  simp only [List.mem_map] at hmem
  obtain ⟨y, hy, rfl⟩ := hmem
  by_cases hc : (y.id == mid && y.user_id == u.id) = true
  · simp [hc]
  · simp only [hc, if_neg] at h1 h2 ⊢
    simp only [Bool.and_eq_true, beq_iff_eq] at hc
    exact absurd ⟨h1, h2⟩ hc

/-- C1 witness: the amended claim at the concrete scenario, with -5 and
the non-numeric text abc. -/
theorem C1_witness :
    (set_min_balance ⟨[⟨0, 7, true⟩], [⟨0, 0, "123", "Home", 50, none, none⟩],
        [], 1, 1⟩ 7 0 (-5)).2 = .ok ∧
    minbalance_amount ⟨[⟨0, 7, true⟩], [⟨0, 0, "123", "Home", 50, none, none⟩],
        [], 1, 1⟩ 7 "abc" ⟨none, [], none⟩
      = (⟨[⟨0, 7, true⟩], [⟨0, 0, "123", "Home", 50, none, none⟩], [], 1, 1⟩,
          .END, .invalidNumber) := by
  have h := C1_theorem ⟨[⟨0, 7, true⟩], [⟨0, 0, "123", "Home", 50, none, none⟩],
    [], 1, 1⟩ 7 0 (-5) ⟨0, 7, true⟩ ⟨0, 0, "123", "Home", 50, none, none⟩
    "abc" ⟨none, [], none⟩ rfl rfl rfl
  exact ⟨h.1, h.2.2⟩

/-- Auxiliary: find? commutes with a map that does not disturb the
predicate. -/
theorem find?_map_pred {α : Type} (f : α → α) (p : α → Bool) (l : List α)
    (hp : ∀ a, p (f a) = p a) :
    (l.map f).find? p = (l.find? p).map f := by
  rw [List.find?_map]
  have hfun : (p ∘ f) = p := funext fun a => hp a
  rw [hfun]

/-- C9: toggle_reminder flips the reminder flag of an existing user on
every call: the reply reports the negated flag, the stored flag is the
negation, a second call restores the original user row, and the flipped
row never equals the prior one. -/
theorem C9_theorem (db : DB) (tgid : Int) (u : User)
    (hu : findUser db tgid = some u) :
    (toggle_reminder db tgid).2 = !u.daily_reminder_enabled ∧
    findUser (toggle_reminder db tgid).1 tgid
      = some { u with daily_reminder_enabled := !u.daily_reminder_enabled } ∧
    (toggle_reminder (toggle_reminder db tgid).1 tgid).2
      = u.daily_reminder_enabled ∧
    findUser (toggle_reminder (toggle_reminder db tgid).1 tgid).1 tgid = some u ∧
    ({ u with daily_reminder_enabled := !u.daily_reminder_enabled } : User) ≠ u := by
  have flip1 : ∀ v : User,
      (((if v.telegram_user_id == tgid
        then { v with daily_reminder_enabled := !v.daily_reminder_enabled }
        else v) : User).telegram_user_id == tgid)
      = (v.telegram_user_id == tgid) := by
    intro v
    by_cases h : (v.telegram_user_id == tgid) = true
    · simp [h]
    · simp [h]
  have step : ∀ (d : DB) (v : User), findUser d tgid = some v →
      findUser (toggle_reminder d tgid).1 tgid
        = some { v with daily_reminder_enabled := !v.daily_reminder_enabled } := by
    intro d v hv
    have hv' : d.users.find? (fun w => w.telegram_user_id == tgid) = some v := hv
    have hpv : (v.telegram_user_id == tgid) = true :=
      List.find?_some (p := fun w : User => w.telegram_user_id == tgid) hv'
    unfold toggle_reminder
    rw [hv]
    dsimp only
    unfold findUser
    dsimp only
    rw [find?_map_pred _ _ _ flip1, hv']
    simp only [Option.map_some']
    rw [if_pos hpv]
  have step2 : ∀ (d : DB) (v : User), findUser d tgid = some v →
      (toggle_reminder d tgid).2 = !v.daily_reminder_enabled := by
    intro d v hv
    unfold toggle_reminder
    rw [hv]
  have hfind1 := step db u hu
  have hfind2' := step _ _ hfind1
  have hueta : ({ { u with daily_reminder_enabled := !u.daily_reminder_enabled }
      with daily_reminder_enabled := !!u.daily_reminder_enabled } : User) = u := by
    cases u
    rw [Bool.not_not]
  rw [hueta] at hfind2'
  refine ⟨step2 db u hu, hfind1, ?_, hfind2', ?_⟩
  · rw [step2 _ _ hfind1]
    exact Bool.not_not u.daily_reminder_enabled
  · intro h
    have := congrArg User.daily_reminder_enabled h
    simp at this

/-- C9 witness: toggling the reminder of user 7 twice, starting from
enabled. -/
theorem C9_witness :
    (toggle_reminder ⟨[⟨0, 7, true⟩], [], [], 1, 0⟩ 7).2 = !true ∧
    findUser (toggle_reminder (toggle_reminder ⟨[⟨0, 7, true⟩], [], [], 1, 0⟩ 7).1 7).1 7
      = some ⟨0, 7, true⟩ := by
  have h := C9_theorem ⟨[⟨0, 7, true⟩], [], [], 1, 0⟩ 7 ⟨0, 7, true⟩ rfl
  exact ⟨h.1, h.2.2.2.1⟩

/-- C10: an add-meter request from an unknown telegram identity inserts
and commits the User row before the verification scrape, so when the
scrape fails the request is rejected with no Meter and no Reading created,
yet the fresh User row persists. -/
theorem C10_theorem (fetch : String → ScrapeResult) (now : Int) (db : DB)
    (tgid : Int) (mn name : String) (e : String)
    (htg : (tgid == 0) = false) (hmn : (mn == "") = false)
    (hname : (name == "") = false)
    (hnouser : findUser db tgid = none)
    (hfresh : ∀ m ∈ db.meters, m.user_id ≠ db.next_user_id)
    (hfetch : fetch mn = .error e) :
    (add_meter fetch now db tgid mn name).2 = .verificationFailed e ∧
    (add_meter fetch now db tgid mn name).1.meters = db.meters ∧
    (add_meter fetch now db tgid mn name).1.history = db.history ∧
    findUser (add_meter fetch now db tgid mn name).1 tgid
      = some ⟨db.next_user_id, tgid, true⟩ := by
  have hnometer : List.find?
      (fun m => m.user_id == db.next_user_id && m.meter_number == mn) db.meters
      = none := by
    rw [List.find?_eq_none]
    intro m hm hcontra
    simp only [Bool.and_eq_true, beq_iff_eq] at hcontra
    exact hfresh m hm hcontra.1
  unfold add_meter ensureUser findMeter
  rw [hnouser]
  simp only [htg, hmn, hname, Bool.or_self, Bool.or_false, Bool.false_or,
    Bool.false_eq_true, if_false]
  rw [hnometer, hfetch]
  refine ⟨rfl, rfl, rfl, ?_⟩
  unfold findUser
  dsimp only
  rw [List.find?_append]
  have hnouser' : List.find? (fun w => w.telegram_user_id == tgid) db.users
      = none := hnouser
  rw [hnouser']
  simp

/-- C10 witness: unknown user 9, a scrape that always fails. -/
theorem C10_witness :
    (add_meter (fun _ => .error "HTTP 500") 0 ⟨[], [], [], 0, 0⟩ 9 "31" "Home").2
      = .verificationFailed "HTTP 500" ∧
    findUser (add_meter (fun _ => .error "HTTP 500") 0 ⟨[], [], [], 0, 0⟩
        9 "31" "Home").1 9 = some ⟨0, 9, true⟩ := by
  have h := C10_theorem (fun _ => .error "HTTP 500") 0 ⟨[], [], [], 0, 0⟩
    9 "31" "Home" "HTTP 500" rfl rfl rfl rfl (by intro m hm; cases hm) rfl
  exact ⟨h.1, h.2.2.2⟩

/-- Auxiliary: the user-creation preamble never touches the meters
table. -/
theorem ensureUser_meters (db : DB) (tgid : Int) :
    (ensureUser db tgid).1.meters = db.meters := by
  unfold ensureUser
  split <;> rfl

/-- Auxiliary: the user-creation preamble never touches the history
table. -/
theorem ensureUser_history (db : DB) (tgid : Int) :
    (ensureUser db tgid).1.history = db.history := by
  unfold ensureUser
  split <;> rfl

/-- Auxiliary: the user-creation preamble never allocates a meter key. -/
theorem ensureUser_next_meter_id (db : DB) (tgid : Int) :
    (ensureUser db tgid).1.next_meter_id = db.next_meter_id := by
  unfold ensureUser
  split <;> rfl

/-- C4: whenever /api/add-meter accepts an identifier, the created Meter
row carries the fetched balance as its snapshot and exactly one history
row exists for it, both appended in the same commit; whenever the
verification fetch fails, neither table changes. -/
theorem C4_theorem (fetch : String → ScrapeResult) (now : Int) (db : DB)
    (tgid : Int) (mn name : String)
    (hfreshh : ∀ h ∈ db.history, h.meter_id ≠ db.next_meter_id) :
    (∀ bal, (add_meter fetch now db tgid mn name).2 = .ok bal →
      ∃ m : Meter,
        (add_meter fetch now db tgid mn name).1.meters = db.meters ++ [m] ∧
        m.last_balance = some bal ∧
        (add_meter fetch now db tgid mn name).1.history
          = db.history ++ [⟨m.id, bal, now⟩] ∧
        ((add_meter fetch now db tgid mn name).1.history.filter
          (fun h => h.meter_id == m.id)).length = 1) ∧
    (∀ e, (add_meter fetch now db tgid mn name).2 = .verificationFailed e →
      (add_meter fetch now db tgid mn name).1.meters = db.meters ∧
      (add_meter fetch now db tgid mn name).1.history = db.history) := by
  unfold add_meter
  by_cases hg : (tgid == 0 || mn == "" || name == "") = true
  · simp only [if_pos hg]
    exact ⟨fun bal hbal => absurd hbal (by simp),
      fun e he => absurd he (by simp)⟩
  · simp only [if_neg hg]
    rcases hfm : findMeter (ensureUser db tgid).1 (ensureUser db tgid).2.id mn
        with _ | m0
    · simp only [hfm]
      rcases hf : fetch mn with b | e0
      · simp only [hf]
        refine ⟨fun bal hbal => ?_, fun e he => absurd he (by simp)⟩
        simp only [AddMeterResult.ok.injEq] at hbal
        subst hbal
        refine ⟨⟨(ensureUser db tgid).1.next_meter_id,
          (ensureUser db tgid).2.id, mn, name, DEFAULT_MIN_BALANCE,
          some b, some now⟩, ?_, rfl, ?_, ?_⟩
        · dsimp only
          rw [ensureUser_meters]
        · dsimp only
          rw [ensureUser_history]
        · dsimp only
          rw [ensureUser_history, ensureUser_next_meter_id,
            List.filter_append]
          have h1 : db.history.filter
              (fun h => h.meter_id == db.next_meter_id) = [] := by
            rw [List.filter_eq_nil_iff]
            intro a ha hc
            exact hfreshh a ha (by simpa using hc)
          rw [h1]
          simp
      · simp only [hf]
        exact ⟨fun bal hbal => absurd hbal (by simp),
          fun e he => ⟨ensureUser_meters db tgid, ensureUser_history db tgid⟩⟩
    · simp only [hfm]
      exact ⟨fun bal hbal => absurd hbal (by simp),
        fun e he => absurd he (by simp)⟩

/-- C4 witness: a fresh database, a scrape returning 10, identifier 31. -/
theorem C4_witness :
    ∃ m : Meter,
      (add_meter (fun _ => .ok 10) 5 ⟨[], [], [], 0, 0⟩ 9 "31" "Home").1.meters
        = [] ++ [m] ∧
      m.last_balance = some 10 ∧
      (add_meter (fun _ => .ok 10) 5 ⟨[], [], [], 0, 0⟩ 9 "31" "Home").1.history
        = [] ++ [⟨m.id, 10, 5⟩] ∧
      (((add_meter (fun _ => .ok 10) 5 ⟨[], [], [], 0, 0⟩ 9 "31" "Home").1.history).filter
        (fun h => h.meter_id == m.id)).length = 1 :=
  (C4_theorem (fun _ => .ok 10) 5 ⟨[], [], [], 0, 0⟩ 9 "31" "Home"
    (by intro h hh; cases hh)).1 10 rfl

/-- Auxiliary: after the user-creation preamble the user can be looked up
again. -/
theorem ensureUser_findUser (db : DB) (tgid : Int) :
    findUser (ensureUser db tgid).1 tgid = some (ensureUser db tgid).2 := by
  unfold ensureUser
  rcases h : findUser db tgid with _ | u
  · simp only [h]
    unfold findUser at h ⊢
    dsimp only
    rw [List.find?_append, h]
    simp
  · simp only [h]

/-- Auxiliary: when the user already exists the preamble is the
identity. -/
theorem ensureUser_found (db : DB) (tgid : Int) (u : User)
    (h : findUser db tgid = some u) : ensureUser db tgid = (db, u) := by
  unfold ensureUser
  rw [h]

/-- Auxiliary: the state produced by a successful /api/add-meter call, and
the fact that the duplicate check came back empty on it. -/
theorem add_meter_ok_struct (fetch : String → ScrapeResult) (now : Int)
    (db : DB) (tgid : Int) (mn name : String) (bal : ℚ)
    (hok : (add_meter fetch now db tgid mn name).2 = .ok bal) :
    (add_meter fetch now db tgid mn name).1
      = { (ensureUser db tgid).1 with
          meters := (ensureUser db tgid).1.meters ++
            [⟨(ensureUser db tgid).1.next_meter_id, (ensureUser db tgid).2.id,
              mn, name, DEFAULT_MIN_BALANCE, some bal, some now⟩]
          history := (ensureUser db tgid).1.history ++
            [⟨(ensureUser db tgid).1.next_meter_id, bal, now⟩]
          next_meter_id := (ensureUser db tgid).1.next_meter_id + 1 } ∧
    findMeter (ensureUser db tgid).1 (ensureUser db tgid).2.id mn = none := by
  unfold add_meter at hok ⊢
  by_cases hg : (tgid == 0 || mn == "" || name == "") = true
  · rw [if_pos hg] at hok
    exact absurd hok (by simp)
  · simp only [if_neg hg] at hok ⊢
    rcases hfm : findMeter (ensureUser db tgid).1 (ensureUser db tgid).2.id mn
        with _ | m0
    · simp only [hfm] at hok ⊢
      rcases hf : fetch mn with b | e0
      · simp only [hf] at hok ⊢
        simp only [AddMeterResult.ok.injEq] at hok
        subst hok
        exact ⟨rfl, trivial⟩
      · simp only [hf] at hok
        exact absurd hok (by simp)
    · simp only [hfm] at hok
      exact absurd hok (by simp)

/-- C5: after a successful registration of (user, identifier), registering
the same pair again is rejected as a duplicate and leaves the database,
its history included, exactly as it was. -/
theorem C5_theorem (fetch fetch2 : String → ScrapeResult) (now now2 : Int)
    (db : DB) (tgid : Int) (mn name name2 : String) (bal : ℚ)
    (htg : (tgid == 0) = false) (hmn : (mn == "") = false)
    (hname2 : (name2 == "") = false)
    (hok : (add_meter fetch now db tgid mn name).2 = .ok bal) :
    add_meter fetch2 now2 (add_meter fetch now db tgid mn name).1 tgid mn name2
      = ((add_meter fetch now db tgid mn name).1, .duplicate) := by
  obtain ⟨hdb1, hnone⟩ := add_meter_ok_struct fetch now db tgid mn name bal hok
  have hu1 : findUser (add_meter fetch now db tgid mn name).1 tgid
      = some (ensureUser db tgid).2 := by
    rw [hdb1]
    have h := ensureUser_findUser db tgid
    unfold findUser at h ⊢
    exact h
  have hmet : findMeter (add_meter fetch now db tgid mn name).1
      (ensureUser db tgid).2.id mn
      = some ⟨(ensureUser db tgid).1.next_meter_id, (ensureUser db tgid).2.id,
          mn, name, DEFAULT_MIN_BALANCE, some bal, some now⟩ := by
    rw [hdb1]
    unfold findMeter at hnone ⊢
    dsimp only
    rw [List.find?_append, hnone]
    simp
  obtain ⟨db1, hdb1def⟩ : ∃ d, (add_meter fetch now db tgid mn name).1 = d :=
    ⟨_, rfl⟩
  rw [hdb1def] at hu1 hmet ⊢
  unfold add_meter
  simp only [htg, hmn, hname2, Bool.or_self, Bool.or_false, Bool.false_or,
    Bool.false_eq_true, if_false]
  rw [ensureUser_found _ tgid _ hu1]
  dsimp only
  rw [hmet]

/-- C5 witness: registering meter 31 for user 9 twice on a fresh
database. -/
theorem C5_witness :
    add_meter (fun _ => .ok 10) 6 (add_meter (fun _ => .ok 10) 5
        ⟨[], [], [], 0, 0⟩ 9 "31" "Home").1 9 "31" "Shop"
      = ((add_meter (fun _ => .ok 10) 5 ⟨[], [], [], 0, 0⟩ 9 "31" "Home").1,
          .duplicate) :=
  C5_theorem (fun _ => .ok 10) (fun _ => .ok 10) 5 6 ⟨[], [], [], 0, 0⟩
    9 "31" "Home" "Shop" 10 rfl rfl rfl rfl

/-- C8: in the AwaitingNumber step, an input whose stripped text is not a
non-empty all-digit string re-prompts and stays in ADD_METER_NUMBER with
the scratch untouched, while a non-empty all-digit input stores the
identifier in the scratch and advances to ADD_METER_NAME. -/
theorem C8_theorem (text : String) (ud : UserData) :
    ((¬ ((pyStrip text).data ≠ [] ∧ ∀ c ∈ (pyStrip text).data, c.isDigit = true)) →
      add_meter_number text ud = (.ADD_METER_NUMBER, ud)) ∧
    (((pyStrip text).data ≠ [] ∧ ∀ c ∈ (pyStrip text).data, c.isDigit = true) →
      add_meter_number text ud
        = (.ADD_METER_NAME, { ud with meter_number := some (pyStrip text) })) := by
  have hiff : pyIsdigit (pyStrip text) = true ↔
      ((pyStrip text).data ≠ [] ∧ ∀ c ∈ (pyStrip text).data, c.isDigit = true) := by
    unfold pyIsdigit
    simp [List.isEmpty_iff]
  constructor
  · intro h
    have hdig : pyIsdigit (pyStrip text) = false := by
      rcases Bool.eq_false_or_eq_true (pyIsdigit (pyStrip text)) with ht | hf
      · exact absurd (hiff.mp ht) h
      · exact hf
    unfold add_meter_number
    simp only [hdig, Bool.not_false, if_true]
  · intro h
    have hdig : pyIsdigit (pyStrip text) = true := hiff.mpr h
    unfold add_meter_number
    simp only [hdig, Bool.not_true, Bool.false_eq_true, if_false]

/-- C8 witness: the all-digit input 123 with surrounding whitespace
advances and stores the stripped identifier. -/
theorem C8_witness :
    add_meter_number "  123 " ⟨none, [], none⟩
      = (.ADD_METER_NAME, ⟨some "123", [], none⟩) :=
  (C8_theorem ("  123 ") ⟨none, [], none⟩).2 (by decide)

/-- Auxiliary: Python subscription at a non-negative index. -/
theorem pyIndex_pos {α : Type} (l : List α) (i : Int) (h : 0 ≤ i) :
    pyIndex l i = l[i.toNat]? := by
  unfold pyIndex
  rw [if_pos h]

/-- Auxiliary: Python subscription at a negative index counting back from
the end. -/
theorem pyIndex_neg_in {α : Type} (l : List α) (i : Int) (h0 : i < 0)
    (h1 : -(l.length : Int) ≤ i) :
    pyIndex l i = l[l.length - (-i).toNat]? := by
  unfold pyIndex
  rw [if_neg (by omega), if_pos h1]

/-- Auxiliary: Python subscription below -len raises IndexError. -/
theorem pyIndex_neg_out {α : Type} (l : List α) (i : Int) (h0 : i < 0)
    (h1 : i < -(l.length : Int)) : pyIndex l i = none := by
  unfold pyIndex
  rw [if_neg (by omega), if_neg (by omega)]

/-- C7 counterexample: with one snapshotted meter, the input 0 is not a
valid 1-based index, yet the handler advances to SET_MIN_AMOUNT and
selects the last meter through Python negative indexing instead of
aborting to the terminal state. -/
theorem C7_counterexample :
    (minbalance_meter_selected "0" ⟨none, [⟨5, "Home"⟩], none⟩).1
      = .SET_MIN_AMOUNT ∧
    (minbalance_meter_selected "0" ⟨none, [⟨5, "Home"⟩], none⟩).1 ≠ .END ∧
    (minbalance_meter_selected "0" ⟨none, [⟨5, "Home"⟩], none⟩).2.selected_meter
      = some ⟨5, "Home"⟩ :=
  ⟨rfl, by decide, rfl⟩

/-- C7 amended: in the AwaitingMeterChoice state with n snapshotted
meters, Cancel ends the flow; a non-numeric input aborts to terminal; an
integer input i outside [1-n, n] aborts to terminal; a valid 1-based index
i in [1, n] advances to AwaitingAmount with meter i selected; and an
integer i in [1-n, 0] also advances, selecting meter n+i through Python
negative indexing, rather than aborting. -/
theorem C7_theorem (text : String) (ud : UserData) :
    (text = "Cancel" → minbalance_meter_selected text ud = (.END, ud)) ∧
    (text ≠ "Cancel" →
      pyInt (String.mk (text.data.takeWhile (fun c => c ≠ '.'))) = none →
      minbalance_meter_selected text ud = (.END, ud)) ∧
    (∀ i : Int, text ≠ "Cancel" →
      pyInt (String.mk (text.data.takeWhile (fun c => c ≠ '.'))) = some i →
      (i < 1 - (ud.minbalance_meters.length : Int) ∨
        (ud.minbalance_meters.length : Int) < i) →
      minbalance_meter_selected text ud = (.END, ud)) ∧
    (∀ i : Int, ∀ m : MeterInfo, text ≠ "Cancel" →
      pyInt (String.mk (text.data.takeWhile (fun c => c ≠ '.'))) = some i →
      1 ≤ i → ud.minbalance_meters[(i - 1).toNat]? = some m →
      minbalance_meter_selected text ud
        = (.SET_MIN_AMOUNT, { ud with selected_meter := some m })) ∧
    (∀ i : Int, text ≠ "Cancel" →
      pyInt (String.mk (text.data.takeWhile (fun c => c ≠ '.'))) = some i →
      1 - (ud.minbalance_meters.length : Int) ≤ i → i ≤ 0 →
      ∃ m : MeterInfo,
        ud.minbalance_meters[ud.minbalance_meters.length - (1 - i).toNat]?
          = some m ∧
        minbalance_meter_selected text ud
          = (.SET_MIN_AMOUNT, { ud with selected_meter := some m })) := by
  refine ⟨?_, ?_, ?_, ?_, ?_⟩
  · intro h
    subst h
    unfold minbalance_meter_selected
    rw [if_pos rfl]
  · intro hne hpy
    unfold minbalance_meter_selected
    rw [if_neg hne, hpy]
  · intro i hne hpy hout
    unfold minbalance_meter_selected
    rw [if_neg hne, hpy]
    have hnone : pyIndex ud.minbalance_meters (i - 1) = none := by
      by_cases hpos : 1 ≤ i
      · rw [pyIndex_pos _ _ (by omega)]
        apply List.getElem?_eq_none
        omega
      · exact pyIndex_neg_out _ _ (by omega) (by omega)
    dsimp only
    rw [hnone]
  · intro i m hne hpy h1 hget
    unfold minbalance_meter_selected
    rw [if_neg hne, hpy]
    dsimp only
    rw [pyIndex_pos _ _ (by omega), hget]
  · intro i hne hpy hlow hhigh
    have hidx : ud.minbalance_meters.length - (1 - i).toNat
        < ud.minbalance_meters.length := by omega
    refine ⟨ud.minbalance_meters.get
      ⟨ud.minbalance_meters.length - (1 - i).toNat, hidx⟩, ?_, ?_⟩
    · exact List.getElem?_eq_getElem hidx
    · unfold minbalance_meter_selected
      rw [if_neg hne, hpy]
      dsimp only
      rw [pyIndex_neg_in _ _ (by omega) (by omega)]
      have harith : (-(i - 1)).toNat = (1 - i).toNat := by omega
      rw [harith, List.getElem?_eq_getElem hidx]
      rfl

/-- C7 witness: the valid selection 1 with one snapshotted meter advances
with that meter selected. -/
theorem C7_witness :
    minbalance_meter_selected "1" ⟨none, [⟨5, "Home"⟩], none⟩
      = (.SET_MIN_AMOUNT, ⟨none, [⟨5, "Home"⟩], some ⟨5, "Home"⟩⟩) :=
  (C7_theorem ("1") ⟨none, [⟨5, "Home"⟩], none⟩).2.2.2.1 1 ⟨5, "Home"⟩
    (by decide) rfl (by decide) rfl

/-- Auxiliary: the yesterday query returns nothing exactly on an empty
scan. -/
theorem latestIn_eq_none {l : List BalanceHistory} :
    latestIn l = none ↔ l = [] := by
  cases l with
  | nil => simp [latestIn]
  | cons h t =>
    simp only [latestIn]
    cases ht : latestIn t <;> simp

/-- Auxiliary: the row the yesterday query returns belongs to the scanned
list. -/
theorem latestIn_mem {l : List BalanceHistory} {b : BalanceHistory}
    (h : latestIn l = some b) : b ∈ l := by
  induction l generalizing b with
  | nil => cases h
  | cons a t ih =>
    simp only [latestIn] at h
    cases ht : latestIn t with
    | none =>
      rw [ht] at h
      injection h with h
      subst h
      exact List.mem_cons_self a t
    | some c =>
      rw [ht] at h
      injection h with h
      subst h
      unfold pickLater
      by_cases hlt : a.recorded_at < c.recorded_at
      · simp only [if_pos hlt]
        exact List.mem_cons_of_mem a (ih ht)
      · simp only [if_neg hlt]
        exact List.mem_cons_self a t

/-- Auxiliary: the row the yesterday query returns has the greatest
timestamp of the scan. -/
theorem latestIn_max {l : List BalanceHistory} {b : BalanceHistory}
    (h : latestIn l = some b) :
    ∀ x ∈ l, x.recorded_at ≤ b.recorded_at := by
  induction l generalizing b with
  | nil => intro x hx; cases hx
  | cons a t ih =>
    intro x hx
    simp only [latestIn] at h
    cases ht : latestIn t with
    | none =>
      rw [ht] at h
      injection h with h
      subst h
      have hte : t = [] := latestIn_eq_none.mp ht
      subst hte
      rcases List.mem_cons.mp hx with hxa | hxt
      · rw [hxa]
      · cases hxt
    | some c =>
      rw [ht] at h
      injection h with h
      subst h
      unfold pickLater
      by_cases hlt : a.recorded_at < c.recorded_at
      · simp only [if_pos hlt]
        rcases List.mem_cons.mp hx with hxa | hxt
        · rw [hxa]; omega
        · exact ih ht x hxt
      · simp only [if_neg hlt]
        rcases List.mem_cons.mp hx with hxa | hxt
        · rw [hxa]
        · have := ih ht x hxt
          omega

/-- Auxiliary: membership in the yesterday scan. -/
theorem mem_windowEntries {db : DB} {mid : Nat} {cutoff : Int}
    {h : BalanceHistory} :
    h ∈ windowEntries db mid cutoff ↔
      h ∈ db.history ∧ h.meter_id = mid ∧ cutoff ≤ h.recorded_at := by
  unfold windowEntries
  simp [List.mem_filter, and_assoc]

/-- C2: on a successful refresh the status entry carries the fetched
balance, and its yesterday_usage is none exactly when no stored reading of
the meter lies in [now - 24h, now); otherwise it is prior.balance minus
the new balance for the most recent such reading (all stored readings are
assumed to predate now). -/
theorem C2_theorem (fetch : String → ScrapeResult) (now : Int) (db : DB)
    (meter : Meter) (bal : ℚ)
    (hfetch : fetch meter.meter_number = .ok bal)
    (hpast : ∀ h ∈ db.history, h.meter_id = meter.id → h.recorded_at < now) :
    ∃ usage : Option ℚ,
      (refreshMeter fetch now db meter).2
        = .ok meter.meter_name meter.meter_number bal usage
            (decide (bal < meter.min_balance)) meter.min_balance ∧
      (usage = none ↔
        ¬ ∃ h ∈ db.history, h.meter_id = meter.id ∧
          now - SECONDS_PER_DAY ≤ h.recorded_at ∧ h.recorded_at < now) ∧
      (∀ d : ℚ, usage = some d →
        ∃ h ∈ db.history, h.meter_id = meter.id ∧
          now - SECONDS_PER_DAY ≤ h.recorded_at ∧ h.recorded_at < now ∧
          d = h.balance - bal ∧
          (∀ g ∈ db.history, g.meter_id = meter.id →
            now - SECONDS_PER_DAY ≤ g.recorded_at → g.recorded_at < now →
            g.recorded_at ≤ h.recorded_at)) := by
  refine ⟨(latestIn (windowEntries db meter.id (now - SECONDS_PER_DAY))).map
    (fun h => h.balance - bal), ?_, ⟨?_, ?_⟩, ?_⟩
  · unfold refreshMeter
    rw [hfetch]
  · intro hmapnone
    rw [Option.map_eq_none'] at hmapnone
    have hempty := latestIn_eq_none.mp hmapnone
    rintro ⟨h, hmem, hmid, hge, hlt⟩
    have hw : h ∈ windowEntries db meter.id (now - SECONDS_PER_DAY) :=
      mem_windowEntries.mpr ⟨hmem, hmid, hge⟩
    rw [hempty] at hw
    cases hw
  · intro hno
    cases hl : latestIn (windowEntries db meter.id (now - SECONDS_PER_DAY)) with
    | none => rfl
    | some b =>
      have hbmem := latestIn_mem hl
      obtain ⟨hmem, hmid, hge⟩ := mem_windowEntries.mp hbmem
      exact absurd ⟨b, hmem, hmid, hge, hpast b hmem hmid⟩ hno
  · intro d hd
    rw [Option.map_eq_some'] at hd
    obtain ⟨b, hb, hdb⟩ := hd
    have hbmem := latestIn_mem hb
    obtain ⟨hmem, hmid, hge⟩ := mem_windowEntries.mp hbmem
    refine ⟨b, hmem, hmid, hge, hpast b hmem hmid, hdb.symm, ?_⟩
    intro g hgmem hgmid hgge _
    exact latestIn_max hb g (mem_windowEntries.mpr ⟨hgmem, hgmid, hgge⟩)

/-- C2 witness: one stored reading of 10 an hour before the refresh, a new
balance of 25; the delta is 10 - 25, a negative top-up delta. -/
theorem C2_witness :
    ∃ usage : Option ℚ,
      (refreshMeter (fun _ => .ok 25) 0
          ⟨[⟨0, 7, true⟩], [⟨0, 0, "31", "Home", 50, none, none⟩],
            [⟨0, 10, -3600⟩], 1, 1⟩
          ⟨0, 0, "31", "Home", 50, none, none⟩).2
        = .ok "Home" "31" 25 usage (decide ((25 : ℚ) < 50)) 50 ∧
      (usage = none ↔
        ¬ ∃ h ∈ [(⟨0, 10, -3600⟩ : BalanceHistory)], h.meter_id = 0 ∧
          (0 : Int) - SECONDS_PER_DAY ≤ h.recorded_at ∧ h.recorded_at < 0) ∧
      (∀ d : ℚ, usage = some d →
        ∃ h ∈ [(⟨0, 10, -3600⟩ : BalanceHistory)], h.meter_id = 0 ∧
          (0 : Int) - SECONDS_PER_DAY ≤ h.recorded_at ∧ h.recorded_at < 0 ∧
          d = h.balance - 25 ∧
          (∀ g ∈ [(⟨0, 10, -3600⟩ : BalanceHistory)], g.meter_id = 0 →
            (0 : Int) - SECONDS_PER_DAY ≤ g.recorded_at → g.recorded_at < 0 →
            g.recorded_at ≤ h.recorded_at)) :=
  C2_theorem (fun _ => .ok 25) 0
    ⟨[⟨0, 7, true⟩], [⟨0, 0, "31", "Home", 50, none, none⟩],
      [⟨0, 10, -3600⟩], 1, 1⟩
    ⟨0, 0, "31", "Home", 50, none, none⟩ 25 rfl (by decide)

/-- C3 counterexample: registering meter 31041051783 with a verification
reading of 120.5 and refreshing one hour later with 95.0 yields a status
whose delta is some (120.5 - 95.0), not None: the hour-old verification
reading lies inside the trailing 24h window of the refresh. -/
theorem C3_counterexample :
    (check_balances (fun _ => .ok 95) 3600
        (add_meter (fun _ => .ok (241 / 2)) 0 ⟨[], [], [], 0, 0⟩
          31041051783 "31041051783" "Home").1 31041051783).2
      = .ok [.ok "Home" "31041051783" 95 (some (241 / 2 - 95)) false 50] ∧
    some ((241 : ℚ) / 2 - 95) ≠ (none : Option ℚ) :=
  ⟨rfl, by simp⟩

/-- C3 amended: in that scenario the resulting status has balance 95.0 and
delta 25.5, the hour-old verification reading being the prior reading in
the trailing-day window; the alert is off at the default threshold 50. -/
theorem C3_theorem :
    (check_balances (fun _ => .ok 95) 3600
        (add_meter (fun _ => .ok (241 / 2)) 0 ⟨[], [], [], 0, 0⟩
          31041051783 "31041051783" "Home").1 31041051783).2
      = .ok [.ok "Home" "31041051783" 95 (some (51 / 2)) false 50] := by
  have h : (check_balances (fun _ => .ok 95) 3600
      (add_meter (fun _ => .ok (241 / 2)) 0 ⟨[], [], [], 0, 0⟩
        31041051783 "31041051783" "Home").1 31041051783).2
      = .ok [.ok "Home" "31041051783" 95 (some (241 / 2 - 95)) false 50] := rfl
  rw [h]
  norm_num

/-- C6: a sweep over a user owning exactly two meters where one scrape
fails returns one successful status and one error entry carrying the
failure; the successful meter's snapshot is updated and its reading
appended, while the failing meter's row and history are untouched — the
single failure never aborts the batch.  Both failure positions are
covered. -/
theorem C6_theorem (fetch : String → ScrapeResult) (now : Int) (db : DB)
    (tgid : Int) (u : User) (a b : Meter)
    (hu : findUser db tgid = some u)
    (hms : userMeters db u.id = [a, b])
    (hab : a.id ≠ b.id) :
    (∀ ba eb, fetch a.meter_number = .ok ba →
      fetch b.meter_number = .error eb →
      ∃ usage : Option ℚ,
        (check_balances fetch now db tgid).2
          = .ok [.ok a.meter_name a.meter_number ba usage
                (decide (ba < a.min_balance)) a.min_balance,
              .fetchError b.meter_name b.meter_number eb] ∧
        (check_balances fetch now db tgid).1.history
          = db.history ++ [⟨a.id, ba, now⟩] ∧
        ({ a with last_balance := some ba, last_checked := some now } : Meter)
          ∈ (check_balances fetch now db tgid).1.meters ∧
        b ∈ (check_balances fetch now db tgid).1.meters) ∧
    (∀ bb ea, fetch a.meter_number = .error ea →
      fetch b.meter_number = .ok bb →
      ∃ usage : Option ℚ,
        (check_balances fetch now db tgid).2
          = .ok [.fetchError a.meter_name a.meter_number ea,
              .ok b.meter_name b.meter_number bb usage
                (decide (bb < b.min_balance)) b.min_balance] ∧
        (check_balances fetch now db tgid).1.history
          = db.history ++ [⟨b.id, bb, now⟩] ∧
        ({ b with last_balance := some bb, last_checked := some now } : Meter)
          ∈ (check_balances fetch now db tgid).1.meters ∧
        a ∈ (check_balances fetch now db tgid).1.meters) := by
  have hamem : a ∈ db.meters := by
    have ha : a ∈ userMeters db u.id := by
      rw [hms]; exact List.mem_cons_self a [b]
    exact (List.mem_filter.mp ha).1
  have hbmem : b ∈ db.meters := by
    have hb : b ∈ userMeters db u.id := by
      rw [hms]; exact List.mem_cons_of_mem a (List.mem_cons_self b [])
    exact (List.mem_filter.mp hb).1
  have hbeqa : (a.id == a.id) = true := beq_self_eq_true a.id
  have hbeqb : (b.id == b.id) = true := beq_self_eq_true b.id
  have hba : (b.id == a.id) = false := by
    simp only [beq_eq_false_iff_ne, ne_eq]
    exact fun h => hab h.symm
  constructor
  · intro ba eb hfa hfb
    have hcb : check_balances fetch now db tgid
        = ({ db with
              meters := db.meters.map (fun m =>
                if m.id == a.id
                then { m with last_balance := some ba, last_checked := some now }
                else m)
              history := db.history ++ [⟨a.id, ba, now⟩] },
            .ok [.ok a.meter_name a.meter_number ba
                ((latestIn (windowEntries db a.id (now - SECONDS_PER_DAY))).map
                  (fun h => h.balance - ba))
                (decide (ba < a.min_balance)) a.min_balance,
              .fetchError b.meter_name b.meter_number eb]) := by
      unfold check_balances
      rw [hu]
      dsimp only
      rw [hms]
      simp only [List.isEmpty_cons, Bool.false_eq_true, if_false, List.foldl]
      unfold refreshMeter
      rw [hfa, hfb]
      dsimp only
      simp only [List.nil_append, List.singleton_append]
    refine ⟨(latestIn (windowEntries db a.id (now - SECONDS_PER_DAY))).map
      (fun h => h.balance - ba), ?_, ?_, ?_, ?_⟩
    · rw [hcb]
    · rw [hcb]
    · rw [hcb]
      exact List.mem_map.mpr ⟨a, hamem, by rw [if_pos hbeqa]⟩
    · rw [hcb]
      exact List.mem_map.mpr ⟨b, hbmem, by rw [if_neg (by simp [hba])]⟩
  · intro bb ea hfa hfb
    have hcb : check_balances fetch now db tgid
        = ({ db with
              meters := db.meters.map (fun m =>
                if m.id == b.id
                then { m with last_balance := some bb, last_checked := some now }
                else m)
              history := db.history ++ [⟨b.id, bb, now⟩] },
            .ok [.fetchError a.meter_name a.meter_number ea,
              .ok b.meter_name b.meter_number bb
                ((latestIn (windowEntries db b.id (now - SECONDS_PER_DAY))).map
                  (fun h => h.balance - bb))
                (decide (bb < b.min_balance)) b.min_balance]) := by
      unfold check_balances
      rw [hu]
      dsimp only
      rw [hms]
      simp only [List.isEmpty_cons, Bool.false_eq_true, if_false, List.foldl]
      unfold refreshMeter
      rw [hfa, hfb]
      dsimp only
      simp only [List.nil_append, List.singleton_append]
    refine ⟨(latestIn (windowEntries db b.id (now - SECONDS_PER_DAY))).map
      (fun h => h.balance - bb), ?_, ?_, ?_, ?_⟩
    · rw [hcb]
    · rw [hcb]
    · rw [hcb]
      exact List.mem_map.mpr ⟨b, hbmem, by rw [if_pos hbeqb]⟩
    · rw [hcb]
      exact List.mem_map.mpr ⟨a, hamem, by rw [if_neg (by simp [hab])]⟩

/-- C6 witness: meters 31 and 32 for user 7, the scrape failing on 32. -/
theorem C6_witness :
    ∃ usage : Option ℚ,
      (check_balances
          (fun s => if s == "31" then .ok 20 else .error "boom") 0
          ⟨[⟨0, 7, true⟩], [⟨0, 0, "31", "Home", 50, none, none⟩,
            ⟨1, 0, "32", "Shop", 50, none, none⟩], [], 1, 2⟩ 7).2
        = .ok [.ok "Home" "31" 20 usage (decide ((20 : ℚ) < 50)) 50,
            .fetchError "Shop" "32" "boom"] ∧
      (check_balances
          (fun s => if s == "31" then .ok 20 else .error "boom") 0
          ⟨[⟨0, 7, true⟩], [⟨0, 0, "31", "Home", 50, none, none⟩,
            ⟨1, 0, "32", "Shop", 50, none, none⟩], [], 1, 2⟩ 7).1.history
        = [] ++ [⟨0, 20, 0⟩] ∧
      (⟨0, 0, "31", "Home", 50, some 20, some 0⟩ : Meter)
        ∈ (check_balances
          (fun s => if s == "31" then .ok 20 else .error "boom") 0
          ⟨[⟨0, 7, true⟩], [⟨0, 0, "31", "Home", 50, none, none⟩,
            ⟨1, 0, "32", "Shop", 50, none, none⟩], [], 1, 2⟩ 7).1.meters ∧
      (⟨1, 0, "32", "Shop", 50, none, none⟩ : Meter)
        ∈ (check_balances
          (fun s => if s == "31" then .ok 20 else .error "boom") 0
          ⟨[⟨0, 7, true⟩], [⟨0, 0, "31", "Home", 50, none, none⟩,
            ⟨1, 0, "32", "Shop", 50, none, none⟩], [], 1, 2⟩ 7).1.meters :=
  (C6_theorem (fun s => if s == "31" then .ok 20 else .error "boom") 0
    ⟨[⟨0, 7, true⟩], [⟨0, 0, "31", "Home", 50, none, none⟩,
      ⟨1, 0, "32", "Shop", 50, none, none⟩], [], 1, 2⟩ 7
    ⟨0, 7, true⟩ ⟨0, 0, "31", "Home", 50, none, none⟩
    ⟨1, 0, "32", "Shop", 50, none, none⟩ rfl rfl (by decide)).1
    20 "boom" rfl rfl

end Nesco
